import Mathlib

/-!
# Verification of the `igcls` IGC report generator

A shallow embedding of `src/igcls.py`: the file-selection logic, the header
extractor `read_pilot_data`, the duration formatters, and the per-file
report-assembly loop of `main`, together with theorems settling the frozen
claims about the program.

Modelling conventions:
* Python strings are Lean `String`s; the Python string primitives used by the
  source (`strip`, `startswith`, `in`, `split(c, 1)`) are embedded as
  executable functions on the underlying character list.
* Machine/stdlib collaborators that the spec declares out of scope (the
  `libigc` flight analyzer, `datetime` calendar formatting, float metric
  formatting, `tabulate`'s box drawing) are modelled at their interface:
  the analyzer's answer for a path is an explicit `Except` value, calendar
  rendering of an epoch timestamp is an arbitrary function parameter, and
  per-segment float metrics are carried as already-rendered cells.
* `tabulate` is modelled at the level of the row structure it receives after
  its input normalization: a row that is itself a Python string is iterated
  into one-character cells (this matters for the exception branch, which
  passes a flat list of strings where every other call site passes a list of
  rows).
* Python `//` and `%` on integers with a positive divisor coincide with
  Euclidean division, so they are embedded as `Int.ediv` / `Int.emod`.
-/

namespace Igcls

/-- Python `str.strip()` on the character list of a line (whitespace at both
ends removed). -/
def pyStrip (cs : List Char) : List Char :=
  ((cs.dropWhile Char.isWhitespace).reverse.dropWhile Char.isWhitespace).reverse

/-- Python `s.split(":", 1)`: the part before the first colon and the part
after it (the whole string and `[]` when no colon occurs). -/
def splitColon1 (cs : List Char) : List Char × List Char :=
  (cs.takeWhile (fun c => c ≠ ':'), (cs.dropWhile (fun c => c ≠ ':')).drop 1)

/-- Python `f"{n:02d}"`: decimal rendering padded on the left with `0` to
width two (a sign counts toward the width, as in Python). -/
def pad2 (n : Int) : String :=
  if 0 ≤ n ∧ n < 10 then "0" ++ toString n else toString n

/-- `format_duration` (igcls.py lines 10–16): seconds to `HH:MM:SS`.
The Python `int(...)` coercions in the f-string are the identity on the
integer inputs modelled here. -/
def format_duration (seconds : Int) : String :=
  let hours := seconds / 3600
  let minutes := seconds % 3600 / 60
  let secs := seconds % 60
  pad2 hours ++ ":" ++ pad2 minutes ++ ":" ++ pad2 secs

/-- The inline duration computation of `main` (igcls.py lines 160–166):
from `total_seconds` of the landing−takeoff time delta to `HH:MM:SS`.
Transcribed independently of `format_duration`; the Python `int(...)`
coercions at the assignments are the identity on integer inputs. -/
def duration_str_main (total_seconds : Int) : String :=
  let hours := total_seconds / 3600
  let minutes := total_seconds % 3600 / 60
  let seconds := total_seconds % 60
  pad2 hours ++ ":" ++ pad2 minutes ++ ":" ++ pad2 seconds

/-! ## Header extractor (`read_pilot_data`, igcls.py lines 24–89) -/

/-- The nine local variables of `read_pilot_data`, one per recognized IGC
header key. -/
structure HeaderFields where
  device : String
  firmware : String
  sensor : String
  pilot : String
  site : String
  compclass : String
  glider : String
  gpsdatum : String
  pressuredatum : String
deriving DecidableEq

/-- The initial values of the nine fields (igcls.py lines 29–37): every field
starts at the "not available" sentinel. -/
def initFields : HeaderFields :=
  { device := "N/A", firmware := "N/A", sensor := "N/A", pilot := "N/A"
    site := "N/A", compclass := "N/A", glider := "N/A", gpsdatum := "N/A"
    pressuredatum := "N/A" }

/-- One iteration of the header-scanning loop (igcls.py lines 41–70): strip
the line, skip it unless it starts with `H`, require a colon, split at the
first colon, strip the value, and assign it to the field selected by the
exact key via the `match` statement (unrecognized keys fall through without
effect). -/
def updateFields (st : HeaderFields) (rawLine : String) : HeaderFields :=
  let line := pyStrip rawLine.data
  if line.head? = some 'H' then
    if line.contains ':' then
      let key : String := ⟨(splitColon1 line).1⟩
      let value : String := ⟨pyStrip (splitColon1 line).2⟩
      match key with
      | "HFFTYFRTYPE" => { st with device := value }
      | "HFRFWFIRMWAREVERSION" => { st with firmware := value }
      | "HFPRSPRESSALTSENSOR" => { st with sensor := value }
      | "HFPLTPILOTINCHARGE" => { st with pilot := value }
      | "HOSITSite" => { st with site := value }
      | "HOCCLCOMPETITION CLASS" => { st with compclass := value }
      | "HFGTYGLIDERTYPE" => { st with glider := value }
      | "HODTM100GPSDATUM" => { st with gpsdatum := value }
      | "HFALPALTPRESSURE" => { st with pressuredatum := value }
      | _ => st
    else st
  else st

/-- The header-scanning loop over the lines actually delivered by the file
object, in order. -/
def headerScan (lines : List String) : HeaderFields :=
  lines.foldl updateFields initFields

/-- The view of a file that `read_pilot_data` sees through `open`/iteration:
the lines successfully delivered before the read either finishes cleanly
(`readErr = none`) or raises (`readErr = some e`, with `e` the stringified
error).  A failure on `open` itself (missing file, permission denied) is
`lines = []` with `readErr = some e`. -/
structure HeaderSource where
  lines : List String
  readErr : Option String

/-- The assembly of the nine fields into the returned list
(igcls.py lines 77–87), in source order. -/
def fieldsToList (st : HeaderFields) : List String :=
  [st.pilot, st.glider, st.compclass, st.site, st.device,
   st.sensor, st.firmware, st.gpsdatum, st.pressuredatum]

/-- `read_pilot_data` (igcls.py lines 24–89): scan the delivered lines; on a
read error, print a log line (second component) but still return the data
accumulated so far (the source comment: "Log error but still return partial
data").  The function is total: no error escapes to the caller. -/
def read_pilot_data (src : HeaderSource) : List String × List String :=
  let st := headerScan src.lines
  let logs : List String :=
    match src.readErr with
    | some e => ["Error reading header: " ++ e]
    | none => []
  (fieldsToList st, logs)

/-- The all-sentinel pilot record. -/
def NA9 : List String := fieldsToList initFields

/-! ## Flight analyzer interface (external collaborator, out of scope)

`libigc.Flight` is modelled at the interface the core consumes
(spec §6): validity flag, notes, takeoff/landing epoch timestamps, altitude
samples, and ordered thermal/glide segments.  `Flight.create_from_file` for
a given path is modelled as an explicit `Except` value: `.error e` when the
analyzer raises with stringified error `e`. -/

/-- A fix: one timestamped altitude sample (only the fields the core reads). -/
structure Fix where
  timestamp : Int
  alt : Int
deriving DecidableEq

/-- A thermal or glide segment as consumed by the core: entry/exit
timestamps, the `time_change()` elapsed seconds, and the segment-specific
float metrics (alt gain and vario for a thermal; distance, speed and glide
ratio for a glide), which are computed and float-formatted by out-of-scope
collaborator code and therefore carried as already-rendered cells. -/
structure Segment where
  enterTs : Int
  exitTs : Int
  timeChange : Int
  metrics : List String
deriving DecidableEq

/-- The analyzer's flight object, at the interface the core reads
(`flight.valid`, `flight.notes`, `flight.takeoff_fix.timestamp`,
`flight.landing_fix.timestamp`, `flight.fixes`, `flight.thermals`,
`flight.glides`). -/
structure Flight where
  valid : Bool
  notes : String
  takeoffTs : Int
  landingTs : Int
  fixes : List Fix
  thermals : List Segment
  glides : List Segment
deriving DecidableEq

/-- `get_max_alt` (igcls.py lines 18–22): the maximum altitude over all
fixes, `0` when there are none. -/
def get_max_alt (flight : Flight) : Int :=
  match flight.fixes.map Fix.alt with
  | [] => 0
  | a :: rest => rest.foldl max a

/-! ## Output model -/

/-- One print action of the program, at the structure level the claims are
about: a table print (indentation in leading tabs per line, the header row,
and the normalized data rows), a plain text line, or the bare `print()`
emitting a single blank line. -/
inductive Out where
  | table (indent : Nat) (headers : List String) (rows : List (List String))
  | line (s : String)
  | blank
deriving DecidableEq

/-- `tabulate`'s input normalization when handed a flat list of strings
instead of a list of rows: each string is itself iterated as a row, so it
becomes a row of one-character cells (an empty string becomes an empty
row).  This is what the exception branch's call
`tabulate(flight_data, headers=headers, ...)` (igcls.py line 150) feeds the
renderer. -/
def coerceRows (data : List String) : List (List String) :=
  data.map (fun s => s.data.map (fun c => String.singleton c))

/-- `Path(file_path).name` (igcls.py line 132) for POSIX paths: trailing
separators dropped, then the part after the last separator. -/
def baseName (p : String) : String :=
  ⟨(((p.data.reverse.dropWhile (fun c => c = '/'))).takeWhile
      (fun c => c ≠ '/')).reverse⟩

/-- The header row of the exception-branch table (igcls.py line 149). -/
def exc_headers : List String :=
  ["File", "Status", "Takeoff", "Landing", "Duration", "Max Alt (m)",
   "Thermals", "Glides", "Notes/Exception"]

/-- The header row of the normal flight table (igcls.py line 205). -/
def flight_headers : List String :=
  ["File", "Status", "Takeoff", "Landing", "Duration", "Max Alt (m)",
   "Thermals", "Glides", "Notes"]

/-- The header row of the pilot table (igcls.py line 209). -/
def pilot_headers : List String :=
  ["Pilot", "Glider", "Class", "Site", "Device", "Sensor", "Firmware",
   "GPS Datum", "Pressure Datum"]

/-- The header row of the thermals table (igcls.py line 239). -/
def thermal_headers : List String :=
  ["Start Time", "End Time", "Duration", "Alt Gain (m)", "Avg Vario (m/s)"]

/-- The header row of the glides table (igcls.py line 268). -/
def glide_headers : List String :=
  ["Start Time", "End Time", "Duration", "Distance (km)",
   "Avg Speed (km/h)", "Glide Ratio"]

/-! ## Report assembler (`main`'s per-file loop, igcls.py lines 127–276)

`fmtTs` stands for
`datetime.datetime.fromtimestamp(ts).strftime("%d/%m/%Y %H:%M:%S")`
(stdlib calendar rendering, out of scope), passed as an arbitrary function
from an epoch timestamp to its display string.  The landing−takeoff
`timedelta.total_seconds()` of two whole-second timestamps is their exact
difference. -/

/-- The `flight_data` list assembled in the exception branch
(igcls.py lines 136–146): full path as supplied, fixed `Exception` status,
six empty fields, and the stringified error. -/
def flight_data_exc (file_path e : String) : List String :=
  [file_path, "Exception", "", "", "", "", "", "", e]

/-- The `flight_data` list assembled after a successful analysis
(igcls.py lines 154–202), branching on `flight.valid`; numeric cells are
rendered by `tabulate` with `str`, i.e. `toString`.  `filename` is
`Path(file_path).name` at the call site. -/
def flight_data_ok (fmtTs : Int → String) (flight : Flight)
    (filename : String) : List String :=
  if flight.valid then
    [filename, "Valid", fmtTs flight.takeoffTs, fmtTs flight.landingTs,
     duration_str_main (flight.landingTs - flight.takeoffTs),
     toString (get_max_alt flight), toString flight.thermals.length,
     toString flight.glides.length, ""]
  else
    [filename, "Invalid", "N/A", "N/A", "N/A", "N/A", "0", "0", flight.notes]

/-- One row of the thermals table (igcls.py lines 229–235). -/
def thermal_row (fmtTs : Int → String) (t : Segment) : List String :=
  [fmtTs t.enterTs, fmtTs t.exitTs, format_duration t.timeChange] ++ t.metrics

/-- One row of the glides table (igcls.py lines 257–264). -/
def glide_row (fmtTs : Int → String) (g : Segment) : List String :=
  [fmtTs g.enterTs, fmtTs g.exitTs, format_duration g.timeChange] ++ g.metrics

/-- The thermals section (igcls.py lines 220–244).  Note the structure of
the source: the `if thermal_data: ... else: print("\n\tNo thermals found")`
statement sits inside `if flight.thermals:`, so nothing at all is printed
when the thermal list is empty. -/
def thermalSection (fmtTs : Int → String) (flight : Flight) : List Out :=
  if flight.thermals.isEmpty then []
  else if (flight.thermals.map (thermal_row fmtTs)).isEmpty then
    [Out.line "\n\tNo thermals found"]
  else
    [Out.line "\n\tThermals:",
     Out.table 2 thermal_headers (flight.thermals.map (thermal_row fmtTs))]

/-- The glides section (igcls.py lines 247–273), with the same structure as
the thermals section. -/
def glideSection (fmtTs : Int → String) (flight : Flight) : List Out :=
  if flight.glides.isEmpty then []
  else if (flight.glides.map (glide_row fmtTs)).isEmpty then
    [Out.line "\n\tNo glides found"]
  else
    [Out.line "\n\tGlides:",
     Out.table 2 glide_headers (flight.glides.map (glide_row fmtTs))]

/-- One iteration of `main`'s file loop (igcls.py lines 127–276) for a file
path, given the analyzer's outcome for that path (`.error e` when
`Flight.create_from_file` raises) and the header-source view of the file.

* Analyzer raises: print the exception table — the flat `flight_data` list
  is passed to `tabulate` (line 150, no wrapping in a list, unlike line
  206), so its rows are the `coerceRows` normalization — then `continue`;
  `read_pilot_data` was never reached, so no pilot table and no header log.
* Otherwise: `read_pilot_data` runs (printing its log lines, if any), the
  flight table (single row) and the tab-indented pilot table are printed;
  when detail was not requested or the flight is invalid the loop
  `continue`s, else the thermal and glide sections and one blank line
  follow. -/
def processFile (long : Bool) (fmtTs : Int → String) (file_path : String)
    (ana : Except String Flight) (hdr : HeaderSource) : List Out :=
  match ana with
  | .error e =>
      [Out.table 0 exc_headers (coerceRows (flight_data_exc file_path e))]
  | .ok flight =>
      let pd := read_pilot_data hdr
      let filename := baseName file_path
      pd.2.map Out.line
      ++ [Out.table 0 flight_headers [flight_data_ok fmtTs flight filename],
          Out.table 1 pilot_headers [pd.1]]
      ++ (if !long || !flight.valid then []
          else thermalSection fmtTs flight ++ glideSection fmtTs flight
               ++ [Out.blank])

/-! ## File selector (igcls.py lines 91–125) -/

/-- The inputs `main` reads from the outside world before the file loop:
the parsed files argument of the `-f` flag (`none` when the flag is absent, `some []`
when it is given with zero paths), the answers of `os.path.exists`, and the
result of `glob.glob("*.igc")` in the current directory. -/
structure Env where
  argsFiles : Option (List String)
  pathExists : String → Bool
  cwdIgcFiles : List String

/-- The warning line for missing files (igcls.py line 112). -/
def missing_warning (missing : List String) : String :=
  "Warning: The following files were not found and will be skipped: "
    ++ String.intercalate ", " missing

/-- The directory-default branch (igcls.py lines 120–125): the printed
text lines and either `some files` to process or `none` for an early
`return`. -/
def globBranch (env : Env) : List String × Option (List String) :=
  if env.cwdIgcFiles.isEmpty then
    (["No IGC files found in current directory"], none)
  else ([], some env.cwdIgcFiles)

/-- File selection (igcls.py lines 98–125): the printed text lines and
either `some files` to process or `none` for an early `return`.  The guard
is the Python truthiness test `if args.files:`, which is false both for an
absent flag and for an explicitly supplied empty list. -/
def selectFiles (env : Env) : List String × Option (List String) :=
  match env.argsFiles with
  | some fs =>
      if fs.isEmpty then globBranch env
      else
        let existing := fs.filter (fun f => env.pathExists f)
        let missing := fs.filter (fun f => !env.pathExists f)
        let warn : List String :=
          if missing.isEmpty then [] else [missing_warning missing]
        if existing.isEmpty then
          (warn ++ ["No existing files to process"], none)
        else (warn, some existing)
  | none => globBranch env

/-- The whole of `main` (igcls.py lines 91–276): selection output followed
by the concatenated per-file output. -/
def mainRun (long : Bool) (fmtTs : Int → String)
    (analyze : String → Except String Flight)
    (hdrOf : String → HeaderSource) (env : Env) : List Out :=
  (selectFiles env).1.map Out.line ++
    match (selectFiles env).2 with
    | none => []
    | some files =>
        (files.map (fun p => processFile long fmtTs p (analyze p) (hdrOf p))).flatten

/-! ## Observation predicates -/

/-- Recognizes a flight-summary table print: the only tables printed at
indentation zero, with either the normal or the exception header row. -/
def isFlightTable : Out → Bool
  | .table 0 h _ => h = flight_headers ∨ h = exc_headers
  | _ => false

/-- Recognizes the pilot-table print (indent one tab, pilot header row). -/
def isPilotTable : Out → Bool
  | .table 1 h _ => h = pilot_headers
  | _ => false

/-- Recognizes the bare blank-line print. -/
def isBlank : Out → Bool
  | .blank => true
  | _ => false

/-- Whether the analyzer succeeded on a file. -/
def anaOk : Except String Flight → Bool
  | .ok _ => true
  | .error _ => false

/-! ## Concrete inputs used by the closed theorems -/

/-- A one-file environment: `-f a.igc` with the file present on disk and an
empty working directory. -/
def envOneFile : Env :=
  { argsFiles := some ["a.igc"], pathExists := fun _ => true,
    cwdIgcFiles := [] }

/-- A valid flight with empty thermal and glide collections. -/
def noSegFlight : Flight :=
  { valid := true, notes := "", takeoffTs := 1000, landingTs := 5000,
    fixes := [], thermals := [], glides := [] }

/-- A file whose read delivers one pilot header line and then raises
(e.g. a decode error in the fix-record body). -/
def partialReadSrc : HeaderSource :=
  ⟨["HFPLTPILOTINCHARGE:Alice"], some "decode error"⟩

/-- An environment with the files flag supplied with zero paths and one
discoverable log file in the working directory. -/
def envEmptyFlag : Env :=
  { argsFiles := some [], pathExists := fun _ => true,
    cwdIgcFiles := ["a.igc"] }

/-- As `envEmptyFlag` but with nothing to discover. -/
def envEmptyFlagEmptyCwd : Env :=
  { argsFiles := some [], pathExists := fun _ => true, cwdIgcFiles := [] }

/-- A one-file explicit selection with an unrelated discoverable file. -/
def envExplicit : Env :=
  { argsFiles := some ["x.igc"], pathExists := fun _ => true,
    cwdIgcFiles := ["y.igc"] }

/-! ## Helper lemmas -/

/-- A field projection is preserved by scanning lines none of which assigns
that field. -/
theorem headerFold_preserves (f : HeaderFields → String) :
    ∀ (post : List String) (s : HeaderFields),
      (∀ l ∈ post, ∀ st, f (updateFields st l) = f st) →
      f (List.foldl updateFields s post) = f s := by
  intro post
  induction post with
  | nil => intro s _; rfl
  | cons a as ih =>
      intro s h
      rw [List.foldl_cons, ih _ (fun l hl => h l (List.mem_cons_of_mem _ hl)),
        h a (List.mem_cons_self _ _)]

/-- Everything the thermal section prints is an indented line or a
doubly-indented table, never a flight/pilot table or a bare blank line. -/
theorem thermalSection_shape (fmtTs : Int → String) (flight : Flight) :
    ∀ o ∈ thermalSection fmtTs flight,
      isFlightTable o = false ∧ isPilotTable o = false ∧ isBlank o = false := by
  intro o ho
  unfold thermalSection at ho
  split at ho
  · simp at ho
  · split at ho <;> simp at ho <;>
      rcases ho with rfl | rfl <;> exact ⟨rfl, rfl, rfl⟩

/-- Everything the glide section prints is an indented line or a
doubly-indented table, never a flight/pilot table or a bare blank line. -/
theorem glideSection_shape (fmtTs : Int → String) (flight : Flight) :
    ∀ o ∈ glideSection fmtTs flight,
      isFlightTable o = false ∧ isPilotTable o = false ∧ isBlank o = false := by
  intro o ho
  unfold glideSection at ho
  split at ho
  · simp at ho
  · split at ho <;> simp at ho <;>
      rcases ho with rfl | rfl <;> exact ⟨rfl, rfl, rfl⟩

/-- Per-file output accounting: every processed file yields exactly one
flight-summary table; a pilot table appears exactly when the analyzer
succeeded; a bare blank line appears exactly when the analyzer succeeded,
the flight is valid, and detail was requested. -/
theorem processFile_counts (long : Bool) (fmtTs : Int → String)
    (path : String) (ana : Except String Flight) (hdr : HeaderSource) :
    (processFile long fmtTs path ana hdr).countP isFlightTable = 1
    ∧ (processFile long fmtTs path ana hdr).countP isPilotTable
        = (if anaOk ana then 1 else 0)
    ∧ (processFile long fmtTs path ana hdr).countP isBlank
        = (match ana with
           | .error _ => 0
           | .ok f => if long && f.valid then 1 else 0) := by
  rcases ana with e | flight
  · exact ⟨rfl, rfl, rfl⟩
  · have tf : ∀ o ∈ thermalSection fmtTs flight, ¬ isFlightTable o = true :=
      fun o ho => by simp [(thermalSection_shape fmtTs flight o ho).1]
    have tp : ∀ o ∈ thermalSection fmtTs flight, ¬ isPilotTable o = true :=
      fun o ho => by simp [(thermalSection_shape fmtTs flight o ho).2.1]
    have tb : ∀ o ∈ thermalSection fmtTs flight, ¬ isBlank o = true :=
      fun o ho => by simp [(thermalSection_shape fmtTs flight o ho).2.2]
    have gf : ∀ o ∈ glideSection fmtTs flight, ¬ isFlightTable o = true :=
      fun o ho => by simp [(glideSection_shape fmtTs flight o ho).1]
    have gp : ∀ o ∈ glideSection fmtTs flight, ¬ isPilotTable o = true :=
      fun o ho => by simp [(glideSection_shape fmtTs flight o ho).2.1]
    have gb : ∀ o ∈ glideSection fmtTs flight, ¬ isBlank o = true :=
      fun o ho => by simp [(glideSection_shape fmtTs flight o ho).2.2]
    rcases hdr with ⟨lines, _ | e⟩ <;>
      rcases hl : long <;> rcases hv : flight.valid <;>
      refine ⟨?_, ?_, ?_⟩ <;>
      simp [processFile, read_pilot_data, hl, hv, anaOk,
        List.countP_append, List.countP_cons,
        List.countP_eq_zero.mpr tf, List.countP_eq_zero.mpr tp,
        List.countP_eq_zero.mpr tb, List.countP_eq_zero.mpr gf,
        List.countP_eq_zero.mpr gp, List.countP_eq_zero.mpr gb,
        isFlightTable, isPilotTable, isBlank]

/-- Text lines contribute nothing to a count of table or blank prints. -/
theorem countP_map_line_zero (p : Out → Bool)
    (hp : ∀ s, p (Out.line s) = false) (l : List String) :
    (l.map Out.line).countP p = 0 := by
  induction l with
  | nil => rfl
  | cons a as ih => simp [List.countP_cons, hp, ih]

/-- Accounting over the whole file loop: one flight-summary table per
processed file, and one pilot table per file on which the analyzer
succeeded. -/
theorem fileLoop_counts (long : Bool) (fmtTs : Int → String)
    (analyze : String → Except String Flight)
    (hdrOf : String → HeaderSource) :
    ∀ files : List String,
      ((files.map
          (fun p => processFile long fmtTs p (analyze p) (hdrOf p))).flatten
        ).countP isFlightTable = files.length
      ∧ ((files.map
          (fun p => processFile long fmtTs p (analyze p) (hdrOf p))).flatten
        ).countP isPilotTable
          = (files.filter (fun p => anaOk (analyze p))).length := by
  intro files
  induction files with
  | nil => exact ⟨rfl, rfl⟩
  | cons a as ih =>
      have hc := processFile_counts long fmtTs a (analyze a) (hdrOf a)
      simp only [List.map_cons, List.flatten_cons, List.countP_append,
        List.filter_cons, List.length_cons, hc.1, hc.2.1, ih.1, ih.2]
      constructor
      · omega
      · rcases h : anaOk (analyze a) <;> (simp [h]; try omega)

/-! ## Claims -/

/-- **C7.** The duration formatter maps a seconds count to zero-padded
`HH:MM:SS` with the hour field unbounded beyond 24 (witnessed at 90000 s =
`25:00:00`) and minutes/seconds always in 0–59; in particular
`format_duration 3661 = "01:01:01"`, `format_duration 0 = "00:00:00"`, and
`format_duration 86399 = "23:59:59"`. -/
theorem format_duration_zero_padded_hms :
    (∀ s : Int, ∃ m sec : Int,
        0 ≤ m ∧ m < 60 ∧ 0 ≤ sec ∧ sec < 60 ∧
        format_duration s
          = pad2 (s / 3600) ++ ":" ++ pad2 m ++ ":" ++ pad2 sec ∧
        s = s / 3600 * 3600 + m * 60 + sec)
    ∧ format_duration 3661 = "01:01:01"
    ∧ format_duration 0 = "00:00:00"
    ∧ format_duration 86399 = "23:59:59"
    ∧ format_duration 90000 = "25:00:00" :=
  ⟨fun s => ⟨s % 3600 / 60, s % 60, by omega, by omega, by omega, by omega,
    rfl, by omega⟩, by decide, by decide, by decide, by decide⟩

/-- **C9.** The inline `HH:MM:SS` computation used by `main` for the
top-level flight duration (igcls.py lines 160–166) produces, for every
seconds value, the same string as `format_duration` (igcls.py lines 10–16):
over the whole-second values arising here the two routines are the same
function, differing only in where the no-op `int(...)` coercion sits. -/
theorem duration_formatters_identical :
    ∀ s : Int, duration_str_main s = format_duration s :=
  fun _ => rfl

/-- **C8.** The header extractor's scan is a left fold, so for a recognized
key the value of the last occurrence wins (any earlier occurrences in `pre`
are overwritten, and lines after it that do not assign the same field leave
it unchanged), and a line that does not assign any field (unrecognized key,
no colon, or no leading `H`) never affects the result.  Grounded on
concrete inputs: a duplicated pilot key returns the later value, and an
unrecognized `H` key line is a no-op. -/
theorem last_key_occurrence_wins :
    (∀ (pre post : List String) (raw : String) (f : HeaderFields → String)
        (v : String),
        (∀ st, f (updateFields st raw) = v) →
        (∀ l ∈ post, ∀ st, f (updateFields st l) = f st) →
        f (headerScan (pre ++ raw :: post)) = v)
    ∧ (∀ (pre post : List String) (raw : String),
        (∀ st, updateFields st raw = st) →
        headerScan (pre ++ raw :: post) = headerScan (pre ++ post))
    ∧ (headerScan
        ["HFPLTPILOTINCHARGE:Alice", "HFPLTPILOTINCHARGE:Bob"]).pilot = "Bob"
    ∧ updateFields initFields "HXJUNK:nope" = initFields := by
  refine ⟨?_, ?_, by decide, by decide⟩
  · intro pre post raw f v h1 h2
    unfold headerScan
    rw [List.foldl_append, List.foldl_cons, headerFold_preserves f post _ h2,
      h1]
  · intro pre post raw h
    unfold headerScan
    rw [List.foldl_append, List.foldl_append, List.foldl_cons, h]

/-- Witness for `last_key_occurrence_wins`: both universally quantified
parts applied at concrete header files, discharging their hypotheses. -/
theorem last_key_occurrence_wins_witness :
    (headerScan ["HFPLTPILOTINCHARGE:Alice", "HFPLTPILOTINCHARGE:Bob",
        "HFGTYGLIDERTYPE:Zeno"]).pilot = "Bob"
    ∧ headerScan ["HFPLTPILOTINCHARGE:Alice", "HOJUNKKEY:zzz"]
        = headerScan ["HFPLTPILOTINCHARGE:Alice"] := by
  constructor
  · refine last_key_occurrence_wins.1 ["HFPLTPILOTINCHARGE:Alice"]
      ["HFGTYGLIDERTYPE:Zeno"] "HFPLTPILOTINCHARGE:Bob" HeaderFields.pilot
      "Bob" (fun st => rfl) ?_
    intro l hl st
    rcases List.mem_singleton.mp hl with rfl
    rfl
  · exact last_key_occurrence_wins.2.1 ["HFPLTPILOTINCHARGE:Alice"] []
      "HOJUNKKEY:zzz" (fun st => rfl)

/-- **C10.** The File cell of the flight-summary row is not uniform across
outcomes: after a successful analysis (Valid or Invalid) it holds
`Path(file_path).name`, the base name, while in the exception branch it
holds the path exactly as supplied; a path with a directory component shows
the two differ. -/
theorem file_column_asymmetry (long : Bool) (fmtTs : Int → String)
    (path e : String) (f : Flight) (hdr : HeaderSource) :
    (flight_data_exc path e).head? = some path
    ∧ processFile long fmtTs path (Except.error e) hdr
        = [Out.table 0 exc_headers (coerceRows (flight_data_exc path e))]
    ∧ (flight_data_ok fmtTs f (baseName path)).head? = some (baseName path)
    ∧ Out.table 0 flight_headers [flight_data_ok fmtTs f (baseName path)]
        ∈ processFile long fmtTs path (Except.ok f) hdr
    ∧ baseName "logs/a.igc" = "a.igc"
    ∧ ("logs/a.igc" : String) ≠ "a.igc" := by
  refine ⟨rfl, rfl, ?_, ?_, by decide, by decide⟩
  · unfold flight_data_ok
    split <;> rfl
  · unfold processFile
    simp

/-- **C1 counterexample.** A resolved file whose analysis raises gets a
flight-summary table but no pilot table at all: the pilot-table count of
the run is 0, not the 1 per file the claim demands (`read_pilot_data` is
only reached after `Flight.create_from_file` has succeeded). -/
theorem pilot_record_missing_on_exception :
    (selectFiles envOneFile).2 = some ["a.igc"]
    ∧ (mainRun false (fun _ => "") (fun _ => Except.error "boom")
        (fun _ => ⟨[], none⟩) envOneFile).countP isPilotTable ≠ 1 := by
  decide

/-- **C1 (amended).** For every resolved selection, the pipeline emits
exactly one flight-summary table per resolved file — no file is silently
dropped, whatever the analysis outcome — and exactly one pilot table per
file whose analysis succeeds (none for a file on which the analyzer
raises). -/
theorem one_summary_row_per_resolved_file (long : Bool)
    (fmtTs : Int → String) (analyze : String → Except String Flight)
    (hdrOf : String → HeaderSource) (env : Env) (files : List String)
    (hsel : (selectFiles env).2 = some files) :
    (mainRun long fmtTs analyze hdrOf env).countP isFlightTable
        = files.length
    ∧ (mainRun long fmtTs analyze hdrOf env).countP isPilotTable
        = (files.filter (fun p => anaOk (analyze p))).length := by
  have hc := fileLoop_counts long fmtTs analyze hdrOf files
  unfold mainRun
  rw [hsel]
  simp only [List.countP_append, hc.1, hc.2,
    countP_map_line_zero isFlightTable (fun _ => rfl),
    countP_map_line_zero isPilotTable (fun _ => rfl), Nat.zero_add]
  constructor <;> trivial

/-- Witness for `one_summary_row_per_resolved_file`: one resolved file whose
analysis raises yields one flight-summary table and zero pilot tables. -/
theorem one_summary_row_per_resolved_file_witness :
    (mainRun false (fun _ => "") (fun _ => Except.error "boom")
        (fun _ => ⟨[], none⟩) envOneFile).countP isFlightTable = 1
    ∧ (mainRun false (fun _ => "") (fun _ => Except.error "boom")
        (fun _ => ⟨[], none⟩) envOneFile).countP isPilotTable = 0 :=
  one_summary_row_per_resolved_file false (fun _ => "")
    (fun _ => Except.error "boom") (fun _ => ⟨[], none⟩) envOneFile
    ["a.igc"] rfl

/-- **C2.** (code slip) On a file whose analysis raises, the assembled row
does hold the full path, the fixed `Exception` status, six empty fields and
the stringified error, and it is the only print for that file — but line
150 passes the flat `flight_data` list to `tabulate` without wrapping it in
a list (unlike line 206), so the renderer receives nine rows — one per
field, each split into one-character cells, e.g. row 1 is
`E`,`x`,`c`,`e`,`p`,`t`,`i`,`o`,`n` — rather than the single-row table the
spec describes. -/
theorem exception_row_passed_unwrapped_to_renderer :
    processFile false (fun _ => "") "a.igc" (Except.error "boom") ⟨[], none⟩
      = [Out.table 0 exc_headers
          (coerceRows (flight_data_exc "a.igc" "boom"))]
    ∧ flight_data_exc "a.igc" "boom"
        = ["a.igc", "Exception", "", "", "", "", "", "", "boom"]
    ∧ (coerceRows (flight_data_exc "a.igc" "boom")).length = 9
    ∧ (coerceRows (flight_data_exc "a.igc" "boom")).length ≠ 1
    ∧ (coerceRows (flight_data_exc "a.igc" "boom"))[1]?
        = some ["E", "x", "c", "e", "p", "t", "i", "o", "n"] := by
  decide

/-- **C3.** (code slip) The "none found" notices are unreachable: the
`else: print("No thermals found")` statement is nested inside
`if flight.thermals:`, so for a valid flight with an empty thermal (or
glide) collection in detailed mode the program prints nothing at all for
that section — neither the notice the spec describes nor an empty table.
The second conjunct evaluates the whole per-file output at such a flight:
only the flight table, the pilot table and the blank line appear. -/
theorem empty_segment_notice_unreachable :
    (∀ (fmtTs : Int → String) (flight : Flight),
        Out.line "\n\tNo thermals found" ∉ thermalSection fmtTs flight
        ∧ Out.line "\n\tNo glides found" ∉ glideSection fmtTs flight)
    ∧ processFile true (fun _ => "t") "a.igc" (Except.ok noSegFlight)
        ⟨[], none⟩
        = [Out.table 0 flight_headers
             [["a.igc", "Valid", "t", "t", "01:06:40", "0", "0", "0", ""]],
           Out.table 1 pilot_headers [NA9], Out.blank] := by
  refine ⟨fun fmtTs flight => ⟨?_, ?_⟩, by decide⟩
  · intro hmem
    unfold thermalSection at hmem
    split at hmem
    · simp at hmem
    · split at hmem
      · rename_i h1 h2
        rcases hth : flight.thermals with _ | ⟨t, ts⟩
        · rw [hth] at h1
          exact h1 rfl
        · rw [hth] at h2
          simp at h2
      · simp at hmem
  · intro hmem
    unfold glideSection at hmem
    split at hmem
    · simp at hmem
    · split at hmem
      · rename_i h1 h2
        rcases hgl : flight.glides with _ | ⟨g, gs⟩
        · rw [hgl] at h1
          exact h1 rfl
        · rw [hgl] at h2
          simp at h2
      · simp at hmem

/-- **C4 counterexample.** A read failure that happens after a header line
has been consumed does not yield the all-sentinel record: the already
parsed pilot name is kept (the source comment says "Log error but still
return partial data"), so not every one of the nine fields is at the
sentinel as the claim demands. -/
theorem header_read_failure_partial_not_all_sentinel :
    partialReadSrc.readErr = some "decode error"
    ∧ (read_pilot_data partialReadSrc).1 ≠ NA9
    ∧ (read_pilot_data partialReadSrc).1.head? = some "Alice" := by
  decide

/-- **C4 (amended).** The header extractor is total (never raises to the
caller) and on any read failure logs the error and returns the fields
accumulated from the lines read before the failure, with every not-yet
assigned field at the sentinel; in particular a failure on open (file
missing, permission denied) — where no line was delivered — returns the
record with all nine fields at the sentinel. -/
theorem header_read_failure_logs_and_keeps_partial (src : HeaderSource)
    (e : String) (h : src.readErr = some e) :
    (read_pilot_data src).2 = ["Error reading header: " ++ e]
    ∧ (read_pilot_data src).1 = fieldsToList (headerScan src.lines)
    ∧ (src.lines = [] → (read_pilot_data src).1 = NA9) := by
  refine ⟨by simp [read_pilot_data, h], rfl, ?_⟩
  intro h0
  simp [read_pilot_data, headerScan, h0, NA9]

/-- Witness for `header_read_failure_logs_and_keeps_partial`: an open
failure returns the all-sentinel record and logs the error. -/
theorem header_read_failure_logs_and_keeps_partial_witness :
    (read_pilot_data ⟨[], some "boom"⟩).2 = ["Error reading header: boom"]
    ∧ (read_pilot_data ⟨[], some "boom"⟩).1 = NA9 := by
  have h := header_read_failure_logs_and_keeps_partial ⟨[], some "boom"⟩
    "boom" rfl
  exact ⟨h.1.trans (by decide), h.2.2 rfl⟩

/-- **C5 counterexample.** Supplying the files flag with zero paths does
fall back to directory discovery: the Python truthiness guard
`if args.files:` is false for the empty list, so the glob branch runs —
the discovered directory file is selected, and with an empty directory the
glob branch's terminal message (not the explicit-list one) is printed. -/
theorem empty_files_flag_falls_back_to_glob :
    envEmptyFlag.argsFiles = some []
    ∧ selectFiles envEmptyFlag = ([], some ["a.igc"])
    ∧ envEmptyFlag.cwdIgcFiles = ["a.igc"]
    ∧ selectFiles envEmptyFlagEmptyCwd
        = (["No IGC files found in current directory"], none) := by
  decide

/-- **C5 (amended).** A non-empty explicit file list overrides directory
discovery: selection then never consults the directory glob, and the files
run are exactly the existing ones from the list (or the run stops when none
exist).  An explicit list with zero paths behaves exactly as if the flag
were absent, falling back to directory discovery. -/
theorem nonempty_explicit_list_overrides_discovery (env : Env)
    (fs : List String) (hf : env.argsFiles = some fs) :
    (fs ≠ [] →
        (∀ g, selectFiles { env with cwdIgcFiles := g } = selectFiles env)
        ∧ (selectFiles env).2
            = (if (fs.filter (fun f => env.pathExists f)).isEmpty then none
               else some (fs.filter (fun f => env.pathExists f))))
    ∧ (fs = [] → selectFiles env = selectFiles { env with argsFiles := none })
    := by
  constructor
  · intro hne
    rcases fs with _ | ⟨a, as⟩
    · exact absurd rfl hne
    constructor
    · intro g
      simp [selectFiles, hf]
    · simp only [selectFiles, hf, List.isEmpty_cons, Bool.false_eq_true,
        if_false]
      split <;> simp_all
  · intro h0
    subst h0
    simp [selectFiles, globBranch, hf]

/-- Witness for `nonempty_explicit_list_overrides_discovery`: with a
non-empty explicit list the directory contents are irrelevant and the
explicit file is selected. -/
theorem nonempty_explicit_list_overrides_discovery_witness :
    selectFiles { envExplicit with cwdIgcFiles := ["zzz.igc"] }
        = selectFiles envExplicit
    ∧ (selectFiles envExplicit).2 = some ["x.igc"] := by
  have h := (nonempty_explicit_list_overrides_discovery envExplicit
    ["x.igc"] rfl).1 (by decide)
  exact ⟨h.1 ["zzz.igc"], h.2.trans (by decide)⟩

/-- **C6 counterexample.** Not every file's output block ends with a blank
line: a file whose analysis raises ends with the exception table (the loop
`continue`s before line 276), and a valid flight without detailed mode
produces no blank line at all. -/
theorem no_blank_line_after_exception_block :
    (processFile false (fun _ => "") "a.igc" (Except.error "boom")
        ⟨[], none⟩).getLast? ≠ some Out.blank
    ∧ (processFile false (fun _ => "t") "a.igc" (Except.ok noSegFlight)
        ⟨[], none⟩).countP isBlank = 0 := by
  decide

/-- **C6 (amended).** The blank separator line is printed only after a
valid flight's block in detailed mode (where it is the last print of the
block, exactly one); blocks ending in an Exception row, or a flight row
without detailed segment tables (detail off or flight invalid), are not
followed by a blank line. -/
theorem blank_line_only_after_detailed_valid_block (long : Bool)
    (fmtTs : Int → String) (path : String) (ana : Except String Flight)
    (hdr : HeaderSource) :
    (processFile long fmtTs path ana hdr).countP isBlank
      = (match ana with
         | .error _ => 0
         | .ok f => if long && f.valid then 1 else 0)
    ∧ (∀ f, ana = Except.ok f → (long && f.valid) = true →
        (processFile long fmtTs path ana hdr).getLast? = some Out.blank) := by
  refine ⟨(processFile_counts long fmtTs path ana hdr).2.2, ?_⟩
  intro f hf hv
  subst hf
  simp only [Bool.and_eq_true] at hv
  simp only [processFile, hv.1, hv.2, Bool.not_true, Bool.or_self,
    Bool.false_eq_true, if_false]
  rw [List.getLast?_append_of_ne_nil, List.getLast?_append_of_ne_nil]
  · rfl
  all_goals simp

/-- Witness for `blank_line_only_after_detailed_valid_block`: a valid
flight in detailed mode ends its block with exactly one blank line. -/
theorem blank_line_only_after_detailed_valid_block_witness :
    (processFile true (fun _ => "t") "a.igc" (Except.ok noSegFlight)
        ⟨[], none⟩).countP isBlank = 1
    ∧ (processFile true (fun _ => "t") "a.igc" (Except.ok noSegFlight)
        ⟨[], none⟩).getLast? = some Out.blank := by
  have h := blank_line_only_after_detailed_valid_block true (fun _ => "t")
    "a.igc" (Except.ok noSegFlight) ⟨[], none⟩
  exact ⟨h.1, h.2 noSegFlight rfl rfl⟩

end Igcls
